import Mathlib

/-!
Shallow embedding of `src/streamlit_app.py`, a single-page Streamlit dashboard.
The script is a linear sequence: load a CSV into a table, extract a numeric
field from a JSON-encoded column, print summaries, then render five
column-guarded chart panels.  Machine-level details of the libraries
(pandas, json) are modelled to the extent the script exercises them:
  - `json.loads` is modelled by an executable recursive-descent JSON parser
    over the character list (`json_loads`); Python floats are modelled as
    exact rationals, and the parser is slightly more lenient than CPython
    on leading zeros and control characters, which the script never relies on.
  - `pd.read_csv` with `engine = python` and on_bad_lines skip is modelled by
    `read_csv`: a line with more fields than the header is a bad line and is
    skipped; a line with fewer fields is kept and padded with missing values
    (this is pandas's documented meaning of a bad line: a line with too many
    fields).  The model assumes the header fixes the column count (no
    implicit index columns) and does not model quoted embedded newlines.
  - Python exceptions are modelled by `Except PyErr`; an uncaught exception
    is an `Except.error` result of the whole run.
Streamlit output is modelled as a list of `Event`s in page order.
-/

/-- Decoded Python value of `json.loads`: null, booleans, numbers (ints and
floats merged into `ℚ`), strings, arrays, objects (assoc list, later
duplicate keys win via `dictGet`). -/
inductive Json where
  | null : Json
  | bool (b : Bool) : Json
  | num (q : ℚ) : Json
  | str (s : String) : Json
  | arr (xs : List Json) : Json
  | obj (kvs : List (String × Json)) : Json

/-- Whitespace skipping of the JSON grammar. -/
def skipWs : List Char → List Char
  | [] => []
  | c :: cs =>
    if c = ' ' ∨ c = '\t' ∨ c = '\n' ∨ c = '\r' then skipWs cs else c :: cs

/-- One-character JSON string escapes. -/
def escChar (e : Char) : Option Char :=
  if e = '"' then some '"'
  else if e = '\\' then some '\\'
  else if e = '/' then some '/'
  else if e = 'n' then some (Char.ofNat 10)
  else if e = 't' then some (Char.ofNat 9)
  else if e = 'r' then some (Char.ofNat 13)
  else if e = 'b' then some (Char.ofNat 8)
  else if e = 'f' then some (Char.ofNat 12)
  else none

/-- Value of one hexadecimal digit. -/
def hexVal (c : Char) : Option Nat :=
  if '0' ≤ c ∧ c ≤ '9' then some (c.toNat - 48)
  else if 'a' ≤ c ∧ c ≤ 'f' then some (c.toNat - 87)
  else if 'A' ≤ c ∧ c ≤ 'F' then some (c.toNat - 55)
  else none

/-- Body of a JSON string literal (the opening quote already consumed):
returns the decoded characters and the rest of the input. -/
def parseStrChars (fuel : Nat) (cs : List Char) : Option (List Char × List Char) :=
  match fuel, cs with
  | _, [] => none
  | 0, _ => none
  | f + 1, c :: rest =>
    if c = '"' then some ([], rest)
    else if c = '\\' then
      match rest with
      | [] => none
      | e :: rest2 =>
        if e = 'u' then
          match rest2 with
          | h1 :: h2 :: h3 :: h4 :: rest3 =>
            match hexVal h1, hexVal h2, hexVal h3, hexVal h4 with
            | some a, some b, some c2, some d =>
              match parseStrChars f rest3 with
              | some (out, fin) => some (Char.ofNat (((a * 16 + b) * 16 + c2) * 16 + d) :: out, fin)
              | none => none
            | _, _, _, _ => none
          | _ => none
        else
          match escChar e with
          | some ch =>
            match parseStrChars f rest2 with
            | some (out, fin) => some (ch :: out, fin)
            | none => none
          | none => none
    else
      match parseStrChars f rest with
      | some (out, fin) => some (c :: out, fin)
      | none => none

/-- Numeric value of a digit run. -/
def digitsVal (ds : List Char) : Nat :=
  ds.foldl (fun a c => a * 10 + (c.toNat - 48)) 0

/-- Exponent part of a JSON number (after `e` / `E`). -/
def parseExp (cs : List Char) : Option (Int × List Char) :=
  match cs with
  | '+' :: r =>
    match r.span Char.isDigit with
    | (ds, r2) => if ds.isEmpty then none else some ((digitsVal ds : Int), r2)
  | '-' :: r =>
    match r.span Char.isDigit with
    | (ds, r2) => if ds.isEmpty then none else some (-(digitsVal ds : Int), r2)
  | _ =>
    match cs.span Char.isDigit with
    | (ds, r2) => if ds.isEmpty then none else some ((digitsVal ds : Int), r2)

/-- Rational value of a decimal with `k` fractional digits, total decimal
mantissa `m` (sign included) and decimal exponent `e`:
`m * 10 ^ (e - k)`, built from integer arithmetic only. -/
def decimalVal (m : Int) (k : Nat) (e : Int) : ℚ :=
  if 0 ≤ e then Rat.divInt (m * (Int.ofNat (10 ^ e.toNat))) (Int.ofNat (10 ^ k))
  else Rat.divInt m (Int.ofNat (10 ^ k * 10 ^ (-e).toNat))

/-- JSON number: optional sign, integer part, optional fraction, optional
exponent; the value is an exact rational (Python float rounding is not
modelled). -/
def parseNumber (cs : List Char) : Option (ℚ × List Char) :=
  let signed : Bool × List Char := match cs with | '-' :: r => (true, r) | _ => (false, cs)
  match signed.2.span Char.isDigit with
  | (ip, cs2) =>
    if ip.isEmpty then none else
    let fracRes : Option (Nat × Nat × List Char) :=
      match cs2 with
      | '.' :: r =>
        match r.span Char.isDigit with
        | (fp, r2) => if fp.isEmpty then none else some (digitsVal fp, fp.length, r2)
      | _ => some (0, 0, cs2)
    match fracRes with
    | none => none
    | some (fv, k, cs3) =>
      let expRes : Option (Int × List Char) :=
        match cs3 with
        | 'e' :: r => parseExp r
        | 'E' :: r => parseExp r
        | _ => some (0, cs3)
      match expRes with
      | none => none
      | some (ev, cs4) =>
        let mant : Int := Int.ofNat (digitsVal ip * 10 ^ k + fv)
        some (decimalVal (if signed.1 then -mant else mant) k ev, cs4)

/-- Parser mode: a whole value, the members of an object (after the opening
brace, `first` until the first member is read), or the elements of an array. -/
inductive PMode where
  | val : PMode
  | objBody (first : Bool) : PMode
  | arrBody (first : Bool) : PMode

/-- Fuel-bounded recursive-descent JSON parser.  In mode `objBody` the result
is always a `Json.obj`, in mode `arrBody` always a `Json.arr`. -/
def parseJ : Nat → PMode → List Char → Option (Json × List Char)
  | 0, _, _ => none
  | f + 1, PMode.val, cs =>
    match skipWs cs with
    | 'n' :: 'u' :: 'l' :: 'l' :: rest => some (Json.null, rest)
    | 't' :: 'r' :: 'u' :: 'e' :: rest => some (Json.bool true, rest)
    | 'f' :: 'a' :: 'l' :: 's' :: 'e' :: rest => some (Json.bool false, rest)
    | '"' :: rest =>
      match parseStrChars (f + 1) rest with
      | some (out, fin) => some (Json.str (String.mk out), fin)
      | none => none
    | '{' :: rest => parseJ f (PMode.objBody true) rest
    | '[' :: rest => parseJ f (PMode.arrBody true) rest
    | other =>
      match parseNumber other with
      | some (q, fin) => some (Json.num q, fin)
      | none => none
  | f + 1, PMode.objBody first, cs =>
    match skipWs cs with
    | '}' :: rest => some (Json.obj [], rest)
    | cs1 =>
      let afterSep : Option (List Char) :=
        if first then some cs1 else match cs1 with | ',' :: r => some r | _ => none
      match afterSep with
      | none => none
      | some cs2 =>
        match skipWs cs2 with
        | '"' :: r1 =>
          match parseStrChars (f + 1) r1 with
          | none => none
          | some (kcs, r2) =>
            match skipWs r2 with
            | ':' :: r3 =>
              match parseJ f PMode.val r3 with
              | none => none
              | some (v, r4) =>
                match parseJ f (PMode.objBody false) r4 with
                | some (Json.obj kvs, r5) => some (Json.obj ((String.mk kcs, v) :: kvs), r5)
                | _ => none
            | _ => none
        | _ => none
  | f + 1, PMode.arrBody first, cs =>
    match skipWs cs with
    | ']' :: rest => some (Json.arr [], rest)
    | cs1 =>
      let afterSep : Option (List Char) :=
        if first then some cs1 else match cs1 with | ',' :: r => some r | _ => none
      match afterSep with
      | none => none
      | some cs2 =>
        match parseJ f PMode.val cs2 with
        | none => none
        | some (v, r1) =>
          match parseJ f (PMode.arrBody false) r1 with
          | some (Json.arr xs, r2) => some (Json.arr (v :: xs), r2)
          | _ => none

/-- `json.loads`: parse the whole string (surrounding whitespace allowed);
`none` models `json.JSONDecodeError`. -/
def json_loads (s : String) : Option Json :=
  match parseJ (2 * s.length + 2) PMode.val s.toList with
  | some (j, rest) => if skipWs rest = [] then some j else none
  | none => none

/-- Python `dict.get`: later duplicate keys overwrite earlier ones, so the
last binding wins. -/
def dictGet (kvs : List (String × Json)) (k : String) : Option Json :=
  match kvs.reverse.find? (fun p => p.1 == k) with
  | some p => some p.2
  | none => none

/-- One cell of the in-memory table: missing value (`NaN` / `NaT`), Python
`None`, a string, a number, a datetime (seconds since the Unix epoch), or an
arbitrary decoded JSON value (as stored by the extraction step). -/
inductive Cell where
  | nan : Cell
  | pynone : Cell
  | str (s : String) : Cell
  | num (q : ℚ) : Cell
  | dt (t : Int) : Cell
  | jsonv (j : Json) : Cell

/-- The Python exceptions the script can meet. -/
inductive PyErr where
  | jsonDecodeError : PyErr
  | typeError : PyErr
  | attributeError : PyErr
  | valueError : PyErr
  | emptyDataError : PyErr

/-- Short message text of an exception (for the f-string of the time-series
panel). -/
def pyErrMsg : PyErr → String
  | PyErr.jsonDecodeError => "JSONDecodeError"
  | PyErr.typeError => "TypeError"
  | PyErr.attributeError => "AttributeError"
  | PyErr.valueError => "ValueError"
  | PyErr.emptyDataError => "EmptyDataError"

/-- Body of the `try` in `parse_json_column` (lines 32-34 of the source):
`json.loads(value)` raises `TypeError` on a non-string argument and
`JSONDecodeError` on undecodable text; `.get("total_balance")` raises
`AttributeError` unless the decoded value is an object (a Python `dict`). -/
def parse_json_body (value : Cell) : Except PyErr (Option Json) :=
  match value with
  | Cell.str s =>
    match json_loads s with
    | none => Except.error PyErr.jsonDecodeError
    | some (Json.obj kvs) => Except.ok (dictGet kvs "total_balance")
    | some _ => Except.error PyErr.attributeError
  | _ => Except.error PyErr.typeError

/-- `parse_json_column` (lines 31-36): the `except` clause catches exactly
`json.JSONDecodeError`, `TypeError` and `AttributeError` and returns `None`;
any other exception would propagate. -/
def parse_json_column (value : Cell) : Except PyErr (Option Json) :=
  match parse_json_body value with
  | Except.error PyErr.jsonDecodeError => Except.ok none
  | Except.error PyErr.typeError => Except.ok none
  | Except.error PyErr.attributeError => Except.ok none
  | r => r

/-- The in-memory table: named columns and rows of cells (each row as long as
the column list). -/
structure DataFrame where
  cols : List String
  rows : List (List Cell)

/-- Is a cell a missing value in the pandas sense (`NaN`, `NaT`, `None`)? -/
def isNa : Cell → Bool
  | Cell.nan => true
  | Cell.pynone => true
  | _ => false

/-- Position of a named column. -/
def colIdx (df : DataFrame) (c : String) : Option Nat :=
  df.cols.findIdx? (fun x => x == c)

/-- The cells of a named column, top to bottom. -/
def colCells (df : DataFrame) (c : String) : List Cell :=
  match colIdx df c with
  | some i => df.rows.map (fun r => r.getD i Cell.nan)
  | none => []

/-- Column assignment `df[c] = cells`: overwrite an existing column in place
or append a new one on the right. -/
def setCol (df : DataFrame) (c : String) (cells : List Cell) : DataFrame :=
  match colIdx df c with
  | some i => { cols := df.cols, rows := (df.rows.zip cells).map (fun p => p.1.set i p.2) }
  | none => { cols := df.cols ++ [c], rows := (df.rows.zip cells).map (fun p => p.1 ++ [p.2]) }

/-- Column projection `df[[names]]`. -/
def selectCols (df : DataFrame) (names : List String) : DataFrame :=
  { cols := names,
    rows := df.rows.map (fun r => names.map (fun n =>
      match df.cols.findIdx? (fun x => x == n) with
      | some i => r.getD i Cell.nan
      | none => Cell.nan)) }

/-- `df.head()`: the first five rows. -/
def dfHead (df : DataFrame) : DataFrame :=
  { cols := df.cols, rows := df.rows.take 5 }

/-- Quoting state while scanning one CSV record: outside quotes, inside
quotes, or just after a quote character met inside quotes (which is either
the closing quote or the first half of a doubled literal quote). -/
inductive QState where
  | outQ : QState
  | inQ : QState
  | seenQ : QState

/-- One CSV record split into fields, with minimal-quoting rules: a quote
toggles the quoted state, a doubled quote inside quotes is a literal quote,
and commas separate fields only outside quotes. -/
def splitRecGo : List Char → QState → List Char → List (List Char) → List (List Char)
  | [], _, cur, acc => acc ++ [cur]
  | c :: cs, QState.outQ, cur, acc =>
    if c = ',' then splitRecGo cs QState.outQ [] (acc ++ [cur])
    else if c = '"' then splitRecGo cs QState.inQ cur acc
    else splitRecGo cs QState.outQ (cur ++ [c]) acc
  | c :: cs, QState.inQ, cur, acc =>
    if c = '"' then splitRecGo cs QState.seenQ cur acc
    else splitRecGo cs QState.inQ (cur ++ [c]) acc
  | c :: cs, QState.seenQ, cur, acc =>
    if c = '"' then splitRecGo cs QState.inQ (cur ++ ['"']) acc
    else if c = ',' then splitRecGo cs QState.outQ [] (acc ++ [cur])
    else splitRecGo cs QState.outQ (cur ++ [c]) acc

/-- Fields of one CSV line. -/
def splitRecord (line : String) : List String :=
  (splitRecGo line.toList QState.outQ [] []).map (fun f => String.mk f)

/-- Split a character list at every occurrence of a separator. -/
def splitChar (sep : Char) : List Char → List (List Char)
  | [] => [[]]
  | c :: cs =>
    match splitChar sep cs with
    | [] => if c = sep then [[], []] else [[c]]
    | f :: rest => if c = sep then [] :: f :: rest else (c :: f) :: rest

/-- Split a string at every occurrence of a separator character. -/
def splitString (sep : Char) (s : String) : List String :=
  (splitChar sep s.toList).map (fun cs => String.mk cs)

/-- Non-blank lines of the file (pandas skips blank lines by default). -/
def csvLines (contents : String) : List String :=
  (splitString '\n' contents).filter (fun l => !(l == ""))

/-- Pad a short record with missing values up to the header width. -/
def padRow (r : List Cell) (n : Nat) : List Cell :=
  r ++ List.replicate (n - r.length) Cell.nan

/-- `pd.read_csv(..., on_bad_lines = skip, engine = python)`: the first line
is the header; a data line with more fields than the header is a bad line and
is skipped; one with fewer fields is kept, padded with `NaN`.  All kept
fields are stored as strings (dtype inference does not matter for any claim
below).  `none` models `EmptyDataError` on an input with no lines, which
`load_data` does not catch. -/
def read_csv (contents : String) : Option DataFrame :=
  match csvLines contents with
  | [] => none
  | header :: dataLines =>
    let cols := splitRecord header
    let n := cols.length
    let kept := dataLines.filter (fun l => (splitRecord l).length ≤ n)
    some { cols := cols, rows := kept.map (fun l => padRow ((splitRecord l).map Cell.str) n) }

/-- Equality of scalar decoded-JSON values.  Containers (arrays / objects)
are unhashable in Python, so pandas's hash-based `unique` / `value_counts`
— the only operations below that compare cells — could never be applied to
them; this script only ever takes value counts of CSV string columns. -/
def jsonLeafBeq : Json → Json → Bool
  | Json.null, Json.null => true
  | Json.bool a, Json.bool b => a == b
  | Json.num a, Json.num b => a == b
  | Json.str a, Json.str b => a == b
  | _, _ => false

/-- Equality test on cells, as pandas compares values in `unique` /
`value_counts` (`NaN` matches `NaN` there, which is what those two
operations observe). -/
def cellBeq : Cell → Cell → Bool
  | Cell.nan, Cell.nan => true
  | Cell.pynone, Cell.pynone => true
  | Cell.str a, Cell.str b => a == b
  | Cell.num a, Cell.num b => a == b
  | Cell.dt a, Cell.dt b => a == b
  | Cell.jsonv a, Cell.jsonv b => jsonLeafBeq a b
  | _, _ => false

/-- `.dropna()` on a series: keep only non-missing cells. -/
def dropna (cs : List Cell) : List Cell :=
  cs.filter (fun c => !(isNa c))

/-- `.unique()`: distinct values in order of first appearance. -/
def uniqueVals (cs : List Cell) : List Cell :=
  cs.foldl (fun acc c => if acc.any (fun x => cellBeq x c) then acc else acc ++ [c]) []

/-- Insert one (value, count) pair keeping counts in descending order;
insertion after equal counts keeps first-appearance order among ties. -/
def insertByCount (p : Cell × Nat) : List (Cell × Nat) → List (Cell × Nat)
  | [] => [p]
  | q :: qs => if q.2 < p.2 then p :: q :: qs else q :: insertByCount p qs

/-- `.value_counts()`: frequencies of the non-missing values, most frequent
first (missing values are dropped, as pandas does by default). -/
def valueCounts (cs : List Cell) : List (Cell × Nat) :=
  let present := dropna cs
  let vals := uniqueVals present
  (vals.map (fun v => (v, present.countP (fun x => cellBeq x v)))).foldl
    (fun acc p => insertByCount p acc) []

/-- One unit of Streamlit output, in page order, carrying the data the call
was given. -/
inductive Event where
  | titleEv (s : String) : Event
  | writeEv (s : String) : Event
  | subheaderEv (s : String) : Event
  | dataframeEv (df : DataFrame) : Event
  | shapeEv (r c : Nat) : Event
  | infoEv (df : DataFrame) : Event
  | describeEv (df : DataFrame) : Event
  | uniqueEv (vs : List Cell) : Event
  | valueCountsEv (vcs : List (Cell × Nat)) : Event
  | warningEv (s : String) : Event
  | errorEv (s : String) : Event
  | histEv (series : List Cell) (bins : Nat) : Event
  | boxEv (x y : String) (df : DataFrame) : Event
  | barEv (vcs : List (Cell × Nat)) : Event
  | scatterEv (x y : String) (df : DataFrame) : Event
  | lineChartEv (ts : List (Int × ℚ)) : Event

/-- The presenter block (lines 45-65): preview, shape, info, describe, and
the CURRENCY_CODE unique/frequency panel when the column exists.  No
statement in the block assigns to the table, so it returns `df` unchanged. -/
def presenterEvents (df : DataFrame) : List Event :=
  [Event.subheaderEv "Data Preview",
   Event.dataframeEv (dfHead df),
   Event.shapeEv df.rows.length df.cols.length,
   Event.subheaderEv "DataFrame Info",
   Event.infoEv df,
   Event.subheaderEv "Descriptive Statistics (Numerical Columns)",
   Event.describeEv df] ++
  (if df.cols.contains "CURRENCY_CODE" then
    [Event.subheaderEv "Unique Values and Frequency in \x27CURRENCY_CODE\x27",
     Event.uniqueEv (uniqueVals (colCells df "CURRENCY_CODE")),
     Event.valueCountsEv (valueCounts (colCells df "CURRENCY_CODE"))]
  else [Event.warningEv "Column \x27CURRENCY_CODE\x27 not found."])

/-- The presenter as a step on the shared table: its output events together
with the table it leaves behind. -/
def presenterStep (df : DataFrame) : List Event × DataFrame :=
  (presenterEvents df, df)

/-- The derived cell stored by `df[..].apply(parse_json_column)`: the
returned JSON value, or Python `None`.  (`parse_json_column` never raises,
so the error branch is unreachable; see `parse_json_column_total`.) -/
def extractedCell (v : Cell) : Cell :=
  match parse_json_column v with
  | Except.ok (some j) => Cell.jsonv j
  | _ => Cell.pynone

/-- The JSON-extraction block (lines 70-75): when the balances column exists,
add the derived `total_balance` column and preview both columns; otherwise
warn. -/
def extractStep (df : DataFrame) : List Event × DataFrame :=
  if df.cols.contains "POST_TRANSACTION_ACCOUNT_BALANCES" then
    let df2 := setCol df "total_balance"
      ((colCells df "POST_TRANSACTION_ACCOUNT_BALANCES").map extractedCell)
    ([Event.subheaderEv "Parsing \x27POST_TRANSACTION_ACCOUNT_BALANCES\x27 to Extract total_balance",
      Event.dataframeEv (dfHead (selectCols df2 ["POST_TRANSACTION_ACCOUNT_BALANCES", "total_balance"]))],
     df2)
  else
    ([Event.warningEv "Column \x27POST_TRANSACTION_ACCOUNT_BALANCES\x27 not found."], df)

/-- Panel 1 (lines 80-88): histogram of the non-missing transaction amounts. -/
def panel1Events (df : DataFrame) : List Event :=
  Event.subheaderEv "1. Distribution of Transaction Amounts" ::
  (if df.cols.contains "TRANSACTION_AMOUNT" then
    [Event.histEv (dropna (colCells df "TRANSACTION_AMOUNT")) 30]
  else
    [Event.warningEv "Column \x27TRANSACTION_AMOUNT\x27 not found. Cannot display Distribution of Transaction Amounts."])

/-- Panel 2 (lines 93-102): box plot of amounts by currency. -/
def panel2Events (df : DataFrame) : List Event :=
  Event.subheaderEv "2. Box Plot of Transaction Amounts by Currency" ::
  (if df.cols.contains "TRANSACTION_AMOUNT" && df.cols.contains "CURRENCY_CODE" then
    [Event.boxEv "CURRENCY_CODE" "TRANSACTION_AMOUNT" df]
  else
    [Event.warningEv "Columns \x27TRANSACTION_AMOUNT\x27 and/or \x27CURRENCY_CODE\x27 not found. Cannot display Box Plot of Transaction Amounts by Currency."])

/-- Panel 3 (lines 107-117): bar chart of the ten most frequent MCC values. -/
def panel3Events (df : DataFrame) : List Event :=
  Event.subheaderEv "3. Top 10 Merchant Category Codes (MCC)" ::
  (if df.cols.contains "MCC" then
    [Event.barEv ((valueCounts (colCells df "MCC")).take 10)]
  else
    [Event.warningEv "Column \x27MCC\x27 not found. Cannot display Top 10 MCC visualization."])

/-- Panel 4 (lines 122-131): scatter of amount against the derived balance. -/
def panel4Events (df : DataFrame) : List Event :=
  Event.subheaderEv "4. Scatter Plot: Transaction Amount vs. Total Balance" ::
  (if df.cols.contains "TRANSACTION_AMOUNT" && df.cols.contains "total_balance" then
    [Event.scatterEv "TRANSACTION_AMOUNT" "total_balance" df]
  else
    [Event.warningEv "Columns \x27TRANSACTION_AMOUNT\x27 and/or \x27total_balance\x27 not found. Cannot display Scatter Plot."])

/-- Civil date to days since 1970-01-01 (proleptic Gregorian). -/
def daysFromCivil (y : Int) (m d : Nat) : Int :=
  let y2 : Int := if m ≤ 2 then y - 1 else y
  let era : Int := y2.fdiv 400
  let yoe : Nat := (y2 - era * 400).toNat
  let mp : Nat := if 2 < m then m - 3 else m + 9
  let doy : Nat := (153 * mp + 2) / 5 + d - 1
  let doe : Nat := yoe * 365 + yoe / 4 - yoe / 100 + doy
  era * 146097 + Int.ofNat doe - 719468

/-- Is a run of exactly `n` digit characters? -/
def isDigits (s : String) (n : Nat) : Bool :=
  s.length == n && s.toList.all Char.isDigit

/-- Numeric value of a digit-only string. -/
def strNat (s : String) : Nat :=
  digitsVal s.toList

/-- Timestamp parsing in the `YYYY-MM-DD` / `YYYY-MM-DD HH:MM:SS` shapes the
dataset uses, to seconds since the epoch; anything else is unparseable and
makes `pd.to_datetime` raise. -/
def parseDateStr (s : String) : Option Int :=
  let parts := splitString ' ' s
  let dateOf : String → Option Int := fun ds =>
    match splitString '-' ds with
    | [ys, ms, dss] =>
      if isDigits ys 4 && isDigits ms 2 && isDigits dss 2 &&
         decide (1 ≤ strNat ms) && decide (strNat ms ≤ 12) &&
         decide (1 ≤ strNat dss) && decide (strNat dss ≤ 31) then
        some (daysFromCivil (Int.ofNat (strNat ys)) (strNat ms) (strNat dss))
      else none
    | _ => none
  match parts with
  | [ds] => (dateOf ds).map (fun days => days * 86400)
  | [ds, ts] =>
    match dateOf ds, splitString ':' ts with
    | some days, [hs, ms, ss] =>
      if isDigits hs 2 && isDigits ms 2 && isDigits ss 2 &&
         decide (strNat hs ≤ 23) && decide (strNat ms ≤ 59) && decide (strNat ss ≤ 59) then
        some (days * 86400 + Int.ofNat (strNat hs * 3600 + strNat ms * 60 + strNat ss))
      else none
    | _, _ => none
  | _ => none

/-- `pd.to_datetime` on one cell: datetimes pass through, missing values
become `NaT`, strings are parsed (raising `ValueError` when unparseable),
numbers are taken as epoch seconds, and decoded-JSON values raise
`TypeError`. -/
def to_datetime (c : Cell) : Except PyErr Cell :=
  match c with
  | Cell.dt t => Except.ok (Cell.dt t)
  | Cell.nan => Except.ok Cell.nan
  | Cell.pynone => Except.ok Cell.nan
  | Cell.num q => Except.ok (Cell.dt (q.num.fdiv (Int.ofNat q.den)))
  | Cell.str s =>
    match parseDateStr s with
    | some t => Except.ok (Cell.dt t)
    | none => Except.error PyErr.valueError
  | Cell.jsonv _ => Except.error PyErr.typeError

/-- Ordering key of `sort_values(TIMESTAMP)`: datetimes ascending, missing
values last. -/
def tsKeyLe (c1 c2 : Cell) : Bool :=
  match c1, c2 with
  | Cell.dt a, Cell.dt b => decide (a ≤ b)
  | Cell.dt _, _ => true
  | _, Cell.dt _ => false
  | _, _ => true

/-- The TIMESTAMP cell of one row. -/
def rowTsCell (cols : List String) (r : List Cell) : Cell :=
  match cols.findIdx? (fun x => x == "TIMESTAMP") with
  | some i => r.getD i Cell.nan
  | none => Cell.nan

/-- Stable insertion into a row list sorted by timestamp. -/
def insertRow (cols : List String) (r : List Cell) : List (List Cell) → List (List Cell)
  | [] => [r]
  | s :: ss =>
    if tsKeyLe (rowTsCell cols r) (rowTsCell cols s) then r :: s :: ss
    else s :: insertRow cols r ss

/-- `df.sort_values(TIMESTAMP, inplace = True)` (sort stability does not
matter to anything observed below). -/
def sortValuesTs (df : DataFrame) : DataFrame :=
  { cols := df.cols, rows := df.rows.foldr (insertRow df.cols) [] }

/-- `resample(D).sum()` on (epoch-second, amount) pairs: one bucket per
calendar day from the earliest to the latest occupied day, each holding the
sum of the amounts falling on it (empty days sum to zero). -/
def resampleDailySum (pairs : List (Int × ℚ)) : List (Int × ℚ) :=
  match pairs.map (fun p => p.1.fdiv 86400) with
  | [] => []
  | d :: ds =>
    let lo := ds.foldl min d
    let hi := ds.foldl max d
    (List.range (hi - lo + 1).toNat).map (fun i =>
      let day := lo + Int.ofNat i
      (day, (pairs.filter (fun p => p.1.fdiv 86400 == day)).foldl (fun acc p => acc + p.2) 0))

/-- One (timestamp, amount) row of the projected series; a non-numeric
amount surviving `dropna` would make the object-dtype sum raise. -/
def toTsAmount : Cell × Cell → Except PyErr (Int × ℚ)
  | (Cell.dt t, Cell.num q) => Except.ok (t, q)
  | _ => Except.error PyErr.typeError

/-- Elementwise `pd.to_datetime` over a column, stopping at the first
failing cell as the library call does. -/
def mapToDatetime : List Cell → Except PyErr (List Cell)
  | [] => Except.ok []
  | c :: cs =>
    match to_datetime c with
    | Except.error e => Except.error e
    | Except.ok c2 =>
      match mapToDatetime cs with
      | Except.error e => Except.error e
      | Except.ok cs2 => Except.ok (c2 :: cs2)

/-- Elementwise reading of the projected (timestamp, amount) rows. -/
def mapToTsAmounts : List (Cell × Cell) → Except PyErr (List (Int × ℚ))
  | [] => Except.ok []
  | p :: ps =>
    match toTsAmount p with
    | Except.error e => Except.error e
    | Except.ok q =>
      match mapToTsAmounts ps with
      | Except.error e => Except.error e
      | Except.ok qs => Except.ok (q :: qs)

/-- Body of the `try` of the time-series panel (lines 139-144): convert the
TIMESTAMP column, sort the table in place by it, project the two columns,
drop missing rows, and aggregate into daily sums. -/
def panel5Body (df : DataFrame) : Except PyErr (DataFrame × List (Int × ℚ)) :=
  match mapToDatetime (colCells df "TIMESTAMP") with
  | Except.error e => Except.error e
  | Except.ok tsCells =>
    let df2 := setCol df "TIMESTAMP" tsCells
    let df3 := sortValuesTs df2
    let pairs := (colCells df3 "TIMESTAMP").zip (colCells df3 "TRANSACTION_AMOUNT")
    let kept := pairs.filter (fun p => !(isNa p.1) && !(isNa p.2))
    match mapToTsAmounts kept with
    | Except.error e => Except.error e
    | Except.ok qpairs => Except.ok (df3, resampleDailySum qpairs)

/-- Prefix of the f-string `Error processing TIMESTAMP column: ...`. -/
def tsErrPrefix : String := "Error processing TIMESTAMP column: "

/-- Panel 5 (lines 136-148): guarded by both columns, with the whole body in
a `try` whose `except Exception` turns any error into an error message. -/
def panel5Events (df : DataFrame) : List Event :=
  Event.subheaderEv "5. Time Series of Transaction Amounts" ::
  (if df.cols.contains "TRANSACTION_AMOUNT" && df.cols.contains "TIMESTAMP" then
    match panel5Body df with
    | Except.ok p => [Event.lineChartEv p.2]
    | Except.error e => [Event.errorEv (tsErrPrefix ++ pyErrMsg e)]
  else
    [Event.warningEv "Columns \x27TRANSACTION_AMOUNT\x27 and/or \x27TIMESTAMP\x27 not found. Cannot display Time Series of Transaction Amounts."])

/-- The whole `if df is not None` block (lines 41-148): presenter, JSON
extraction, then the five panels over the extended table. -/
def renderBody (df0 : DataFrame) : List Event :=
  let pres := presenterStep df0
  let ex := extractStep pres.2
  let df := ex.2
  pres.1 ++ ex.1 ++ panel1Events df ++ panel2Events df ++ panel3Events df ++
    panel4Events df ++ panel5Events df

/-- Message of the loader's FileNotFoundError branch (line 24). -/
def fnfMsg : String := "CSV file not found."

/-- Message of the module-level else branch (line 150). -/
def noDataMsg : String := "No data loaded. Please ensure the CSV file exists and is formatted correctly."

/-- `load_data` (lines 15-28) over the state of the fixed file path: absent
file takes the FileNotFoundError branch (an error message and `None`);
otherwise the CSV is read.  In this CSV model parsing never raises
`ParserError` (bad lines are skipped), so that `except` branch is not
exercised; `EmptyDataError` on a file with no lines is not caught and
propagates. -/
def load_data (fs : Option String) : Except PyErr (Option DataFrame × List Event) :=
  match fs with
  | none => Except.ok (none, [Event.errorEv fnfMsg])
  | some contents =>
    match read_csv contents with
    | some df => Except.ok (some df, [])
    | none => Except.error PyErr.emptyDataError

/-- Title of the page (line 9). -/
def appTitle : String := "LOL Dataset Key Visualizations"

/-- Intro text of the page (line 10). -/
def appIntro : String := "This app displays key visualizations based on the LOL dataset using the same code used in the original notebook."

/-- The whole script, top to bottom, over the state of the input file:
title and intro, the loader's messages, then either the full body or the
single else-branch error. -/
def run (fs : Option String) : Except PyErr (List Event) :=
  match load_data fs with
  | Except.error e => Except.error e
  | Except.ok (odf, evs) =>
    Except.ok ([Event.titleEv appTitle, Event.writeEv appIntro] ++ evs ++
      (match odf with
       | some df => renderBody df
       | none => [Event.errorEv noDataMsg]))

/-- Is an event rendering work of a presenter or chart panel (anything
beyond the unconditional title/intro and the failure messages)? -/
def isPanelWork : Event → Bool
  | Event.titleEv _ => false
  | Event.writeEv _ => false
  | Event.errorEv _ => false
  | _ => true

/-- Is an event a `st.error` failure message? -/
def isErrorEv : Event → Bool
  | Event.errorEv _ => true
  | _ => false

/-- The full page output when loading fails: title, intro, the loader's
message, and the module-level else message. -/
def failEvents : List Event :=
  [Event.titleEv appTitle, Event.writeEv appIntro, Event.errorEv fnfMsg, Event.errorEv noDataMsg]

/-- The column set after the JSON-extraction step, as a function of the
input columns: the derived `total_balance` column appears exactly when the
balances column is present. -/
def colsAfterExtract (cols : List String) : List String :=
  if cols.contains "POST_TRANSACTION_ACCOUNT_BALANCES" then
    if cols.contains "total_balance" then cols else cols ++ ["total_balance"]
  else cols

/-- The guard of chart panel `i` (1-5), read off lines 81, 94, 108, 123 and
137, as a function of the loaded table's columns (the guards run after the
extraction step, hence on `colsAfterExtract`). -/
def panelRenders (i : Nat) (cols0 : List String) : Bool :=
  let cols := colsAfterExtract cols0
  match i with
  | 1 => cols.contains "TRANSACTION_AMOUNT"
  | 2 => cols.contains "TRANSACTION_AMOUNT" && cols.contains "CURRENCY_CODE"
  | 3 => cols.contains "MCC"
  | 4 => cols.contains "TRANSACTION_AMOUNT" && cols.contains "total_balance"
  | 5 => cols.contains "TRANSACTION_AMOUNT" && cols.contains "TIMESTAMP"
  | _ => false

/-- Dropping one named column from the input table's column list. -/
def removeCol (c : String) (cols : List String) : List String :=
  cols.filter (fun x => !(x == c))

/-- Modelled from the spec wording of claim C7, for comparison with
`read_csv`: the number of data rows whose field count is structurally
valid, i.e. equals the header's field count. -/
def specValidRowCount (contents : String) : Nat :=
  match csvLines contents with
  | [] => 0
  | header :: dataLines =>
    (dataLines.filter (fun l => (splitRecord l).length == (splitRecord header).length)).length

/-! Shared auxiliary lemmas. -/

theorem mem_removeCol (c d : String) (cols : List String) (h : d ≠ c) :
    d ∈ removeCol c cols ↔ d ∈ cols := by
  simp [removeCol, h]

theorem mem_colsAfterExtract (d : String) (cols : List String) :
    d ∈ colsAfterExtract cols ↔
      (d ∈ cols ∨ (d = "total_balance" ∧ "POST_TRANSACTION_ACCOUNT_BALANCES" ∈ cols)) := by
  unfold colsAfterExtract
  split_ifs with h1 h2
  · have m1 : "POST_TRANSACTION_ACCOUNT_BALANCES" ∈ cols := by simpa using h1
    have m2 : "total_balance" ∈ cols := by simpa using h2
    by_cases hd : d = "total_balance" <;> simp [hd, m1, m2]
  · have m1 : "POST_TRANSACTION_ACCOUNT_BALANCES" ∈ cols := by simpa using h1
    by_cases hd : d = "total_balance" <;> simp [hd, m1]
  · have m1 : "POST_TRANSACTION_ACCOUNT_BALANCES" ∉ cols := by simpa using h1
    simp [m1]

theorem resampleDailySum_two_same_day (t1 t2 : Int) (a b : ℚ)
    (h : t1.fdiv 86400 = t2.fdiv 86400) :
    resampleDailySum [(t1, a), (t2, b)] = [(t1.fdiv 86400, 0 + a + b)] := by
  unfold resampleDailySum
  simp [h, show List.range 1 = [0] from rfl]

/-! Claim theorems. -/

/-- C1 counterexample: the claim fails as stated.  In the table with columns
TRANSACTION_AMOUNT and CURRENCY_CODE, TRANSACTION_AMOUNT is a column
required by panel 1 (removing it stops panel 1 rendering), yet removing it
also changes panel 2 from rendering to not rendering, so the other four
panels are not left unchanged. -/
theorem c1_counterexample :
    panelRenders 1 ["TRANSACTION_AMOUNT", "CURRENCY_CODE"] = true ∧
    panelRenders 1 (removeCol "TRANSACTION_AMOUNT" ["TRANSACTION_AMOUNT", "CURRENCY_CODE"]) = false ∧
    panelRenders 2 ["TRANSACTION_AMOUNT", "CURRENCY_CODE"] = true ∧
    panelRenders 2 (removeCol "TRANSACTION_AMOUNT" ["TRANSACTION_AMOUNT", "CURRENCY_CODE"]) = false :=
  ⟨rfl, rfl, rfl, rfl⟩

/-- C1 (amended): a column that only one chart panel requires is
independently omittable.  For every input column set, removing
CURRENCY_CODE (required only by panel 2), MCC (only panel 3),
POST_TRANSACTION_ACCOUNT_BALANCES or total_balance (only panel 4), or
TIMESTAMP (only panel 5) leaves the render decision of every other panel
unchanged; the shared TRANSACTION_AMOUNT column is excluded, as the
counterexample shows it affects panels 1, 2, 4 and 5 at once. -/
theorem c1_amended_other_panels_unaffected (c : String) (i j : Nat) (cols : List String)
    (hc : (c, i) ∈ [("CURRENCY_CODE", 2), ("MCC", 3),
      ("POST_TRANSACTION_ACCOUNT_BALANCES", 4), ("total_balance", 4), ("TIMESTAMP", 5)])
    (hj : j ∈ [1, 2, 3, 4, 5]) (hne : j ≠ i) :
    panelRenders j (removeCol c cols) = panelRenders j cols := by
  simp only [List.mem_cons, List.mem_singleton, List.not_mem_nil, or_false] at hc hj
  rcases hc with hc | hc | hc | hc | hc <;>
    rcases hj with rfl | rfl | rfl | rfl | rfl <;>
    rcases Prod.mk.injEq .. ▸ hc with ⟨rfl, rfl⟩ <;>
    first
      | exact absurd rfl hne
      | simp [panelRenders, mem_colsAfterExtract, mem_removeCol]

/-- C1 witness: removing MCC (required by panel 3 only) leaves panel 1
unchanged on a concrete table. -/
theorem c1_amended_witness :
    panelRenders 1 (removeCol "MCC" ["MCC", "TRANSACTION_AMOUNT"]) =
      panelRenders 1 ["MCC", "TRANSACTION_AMOUNT"] :=
  c1_amended_other_panels_unaffected "MCC" 3 1 ["MCC", "TRANSACTION_AMOUNT"]
    (by decide) (by decide) (by decide)

unseal Rat.add Rat.mul Rat.inv in
/-- C2: the JSON field extractor returns `42.5` on the object input, an
empty result on the undecodable string, and an empty result on a
null/None input; in each case without raising. -/
theorem c2_extractor_examples :
    parse_json_column (Cell.str "\x7b\"total_balance\": 42.5\x7d") =
      Except.ok (some (Json.num (85 / 2))) ∧
    parse_json_column (Cell.str "not json") = Except.ok none ∧
    parse_json_column Cell.pynone = Except.ok none :=
  ⟨rfl, rfl, rfl⟩

/-- C3: for every input cell the extractor completes normally (never an
uncaught exception), and the result is either the empty result, or the
looked-up `total_balance` field of a successfully decoded JSON object. -/
theorem c3_extractor_total_no_exception (v : Cell) :
    (∃ r, parse_json_column v = Except.ok r) ∧
    (parse_json_column v = Except.ok none ∨
      ∃ s kvs, v = Cell.str s ∧ json_loads s = some (Json.obj kvs) ∧
        parse_json_column v = Except.ok (dictGet kvs "total_balance")) := by
  have hshape : parse_json_column v = Except.ok none ∨
      ∃ s kvs, v = Cell.str s ∧ json_loads s = some (Json.obj kvs) ∧
        parse_json_column v = Except.ok (dictGet kvs "total_balance") := by
    cases v with
    | str s =>
      cases hj : json_loads s with
      | none => left; simp [parse_json_column, parse_json_body, hj]
      | some j =>
        cases j with
        | obj kvs =>
          right
          exact ⟨s, kvs, rfl, hj, by simp [parse_json_column, parse_json_body, hj]⟩
        | null => left; simp [parse_json_column, parse_json_body, hj]
        | bool b => left; simp [parse_json_column, parse_json_body, hj]
        | num q => left; simp [parse_json_column, parse_json_body, hj]
        | str t => left; simp [parse_json_column, parse_json_body, hj]
        | arr xs => left; simp [parse_json_column, parse_json_body, hj]
    | nan => left; simp [parse_json_column, parse_json_body]
    | pynone => left; simp [parse_json_column, parse_json_body]
    | num q => left; simp [parse_json_column, parse_json_body]
    | dt t => left; simp [parse_json_column, parse_json_body]
    | jsonv j => left; simp [parse_json_column, parse_json_body]
  refine ⟨?_, hshape⟩
  rcases hshape with h | ⟨s, kvs, hv, hj, h⟩
  · exact ⟨none, h⟩
  · exact ⟨dictGet kvs "total_balance", h⟩

/-- C4: with the input file missing, the loader returns an absent table and
the page shows only the title, the intro and the two failure messages — no
presenter panel and no chart panel does any rendering work. -/
theorem c4_missing_file_no_render :
    load_data none = Except.ok (none, [Event.errorEv fnfMsg]) ∧
    run none = Except.ok failEvents ∧
    failEvents.all (fun e => !(isPanelWork e)) = true :=
  ⟨rfl, rfl, rfl⟩

/-- C5 counterexample: on the missing-file load failure the page surfaces
two user-visible failure messages (the loader message and the module-level
else message), not exactly one. -/
theorem c5_counterexample_two_messages :
    (run none).map (fun evs => (evs.filter isErrorEv).length) = Except.ok 2 ∧
    (2 : Nat) ≠ 1 :=
  ⟨rfl, by decide⟩

/-- C5 (amended): whenever the load step yields no table, the render is
halted — the page is exactly the title, the intro and two failure messages
(the loader message and the module-level one), with no panel work. -/
theorem c5_amended_load_failure_two_messages (fs : Option String) (evs : List Event)
    (h : load_data fs = Except.ok (none, evs)) :
    evs = [Event.errorEv fnfMsg] ∧
    run fs = Except.ok failEvents ∧
    (failEvents.filter isErrorEv).length = 2 ∧
    failEvents.all (fun e => !(isPanelWork e)) = true := by
  cases fs with
  | none =>
    have he : evs = [Event.errorEv fnfMsg] := by
      have h2 := h
      simp [load_data] at h2
      exact h2.symm
    exact ⟨he, rfl, rfl, rfl⟩
  | some c =>
    exfalso
    simp only [load_data] at h
    cases hr : read_csv c with
    | some df => rw [hr] at h; simp at h
    | none => rw [hr] at h; simp at h

/-- C5 witness: the amended statement at the missing-file input. -/
theorem c5_amended_witness :
    [Event.errorEv fnfMsg] = [Event.errorEv fnfMsg] ∧
    run none = Except.ok failEvents ∧
    (failEvents.filter isErrorEv).length = 2 ∧
    failEvents.all (fun e => !(isPanelWork e)) = true :=
  c5_amended_load_failure_two_messages none [Event.errorEv fnfMsg] rfl

/-- C6: on a table of two rows whose timestamps fall on the same calendar
day carrying amounts 10 and 5, the time-series pipeline produces exactly
one daily bucket, holding the sum 15. -/
theorem c6_same_day_single_bucket_sum (t1 t2 : Int) (h : t1.fdiv 86400 = t2.fdiv 86400) :
    ∃ df3, panel5Body
      { cols := ["TIMESTAMP", "TRANSACTION_AMOUNT"],
        rows := [[Cell.dt t1, Cell.num 10], [Cell.dt t2, Cell.num 5]] } =
      Except.ok (df3, [(t1.fdiv 86400, 15)]) := by
  by_cases hle : t1 ≤ t2
  · refine ⟨DataFrame.mk ["TIMESTAMP", "TRANSACTION_AMOUNT"]
      [[Cell.dt t1, Cell.num 10], [Cell.dt t2, Cell.num 5]], ?_⟩
    simp [panel5Body, colCells, colIdx, mapToDatetime, to_datetime, setCol,
      sortValuesTs, insertRow, rowTsCell, tsKeyLe, hle, isNa, mapToTsAmounts,
      toTsAmount, resampleDailySum_two_same_day t1 t2 10 5 h]
    norm_num
  · refine ⟨DataFrame.mk ["TIMESTAMP", "TRANSACTION_AMOUNT"]
      [[Cell.dt t2, Cell.num 5], [Cell.dt t1, Cell.num 10]], ?_⟩
    simp [panel5Body, colCells, colIdx, mapToDatetime, to_datetime, setCol,
      sortValuesTs, insertRow, rowTsCell, tsKeyLe, hle, isNa, mapToTsAmounts,
      toTsAmount, resampleDailySum_two_same_day t2 t1 5 10 h.symm, h]
    norm_num

/-- C6 witness: two concrete timestamps ten seconds and two hours into the
epoch day. -/
theorem c6_witness :
    ∃ df3, panel5Body
      { cols := ["TIMESTAMP", "TRANSACTION_AMOUNT"],
        rows := [[Cell.dt 10, Cell.num 10], [Cell.dt 7200, Cell.num 5]] } =
      Except.ok (df3, [((10 : Int).fdiv 86400, 15)]) :=
  c6_same_day_single_bucket_sum 10 7200 (by decide)

/-- C7 counterexample: in the file with header `A,B` and the single data row
`x` (one field, structurally invalid), the loader keeps the short row
(padded), so the table has 1 row while the spec-modelled count of valid
data rows is 0; a row with too many fields (`x,y,z`) is what gets skipped. -/
theorem c7_counterexample_short_row_kept :
    (read_csv "A,B\nx").map (fun df => df.rows.length) = some 1 ∧
    specValidRowCount "A,B\nx" = 0 ∧
    (read_csv "A,B\nx,y,z").map (fun df => df.rows.length) = some 0 :=
  ⟨rfl, rfl, rfl⟩

/-- C7 (amended): the loaded table's row count equals the number of data
lines whose field count does not exceed the header's — lines with extra
fields are the skipped bad lines, while lines with missing fields are kept
and padded with missing values. -/
theorem c7_amended_row_count (contents : String) (header : String)
    (dataLines : List String) (df : DataFrame)
    (h : csvLines contents = header :: dataLines)
    (hr : read_csv contents = some df) :
    df.rows.length =
      dataLines.countP (fun l => (splitRecord l).length ≤ (splitRecord header).length) := by
  unfold read_csv at hr
  rw [h] at hr
  simp only [Option.some.injEq] at hr
  subst hr
  simp [List.countP_eq_length_filter]

/-- C7 witness: a concrete file with one short row, one exact row and one
over-long row loads as two rows. -/
theorem c7_amended_witness :
    (DataFrame.mk ["A", "B"] [[Cell.str "x", Cell.nan], [Cell.str "y", Cell.str "z"]]).rows.length =
      ["x", "y,z", "q,r,s"].countP (fun l => (splitRecord l).length ≤ (splitRecord "A,B").length) :=
  c7_amended_row_count "A,B\nx\ny,z\nq,r,s" "A,B" ["x", "y,z", "q,r,s"]
    (DataFrame.mk ["A", "B"] [[Cell.str "x", Cell.nan], [Cell.str "y", Cell.str "z"]]) rfl rfl

/-- C8: when both guarded columns are present and the body of the
time-series panel raises, the panel emits exactly its subheader and the
error message, and the whole page render still completes with every other
section's events in place. -/
theorem c8_timestamp_error_caught (df0 : DataFrame) (e : PyErr)
    (h1 : (extractStep df0).2.cols.contains "TRANSACTION_AMOUNT" = true)
    (h2 : (extractStep df0).2.cols.contains "TIMESTAMP" = true)
    (h3 : panel5Body (extractStep df0).2 = Except.error e) :
    panel5Events (extractStep df0).2 =
      [Event.subheaderEv "5. Time Series of Transaction Amounts",
       Event.errorEv (tsErrPrefix ++ pyErrMsg e)] ∧
    renderBody df0 =
      presenterEvents df0 ++ (extractStep df0).1 ++
      panel1Events (extractStep df0).2 ++ panel2Events (extractStep df0).2 ++
      panel3Events (extractStep df0).2 ++ panel4Events (extractStep df0).2 ++
      [Event.subheaderEv "5. Time Series of Transaction Amounts",
       Event.errorEv (tsErrPrefix ++ pyErrMsg e)] := by
  have h5 : panel5Events (extractStep df0).2 =
      [Event.subheaderEv "5. Time Series of Transaction Amounts",
       Event.errorEv (tsErrPrefix ++ pyErrMsg e)] := by
    unfold panel5Events
    rw [h1, h2, h3]
    simp
  refine ⟨h5, ?_⟩
  show presenterEvents df0 ++ (extractStep df0).1 ++ panel1Events (extractStep df0).2 ++
      panel2Events (extractStep df0).2 ++ panel3Events (extractStep df0).2 ++
      panel4Events (extractStep df0).2 ++ panel5Events (extractStep df0).2 = _
  rw [h5]

/-- C8 witness: a one-row table whose TIMESTAMP cell is an unparseable
string; the conversion raises, the panel reports it, and the page
completes. -/
theorem c8_witness :
    panel5Events (extractStep (DataFrame.mk ["TRANSACTION_AMOUNT", "TIMESTAMP"]
        [[Cell.num 1, Cell.str "garbage"]])).2 =
      [Event.subheaderEv "5. Time Series of Transaction Amounts",
       Event.errorEv (tsErrPrefix ++ pyErrMsg PyErr.valueError)] ∧
    renderBody (DataFrame.mk ["TRANSACTION_AMOUNT", "TIMESTAMP"]
        [[Cell.num 1, Cell.str "garbage"]]) =
      presenterEvents (DataFrame.mk ["TRANSACTION_AMOUNT", "TIMESTAMP"]
        [[Cell.num 1, Cell.str "garbage"]]) ++
      (extractStep (DataFrame.mk ["TRANSACTION_AMOUNT", "TIMESTAMP"]
        [[Cell.num 1, Cell.str "garbage"]])).1 ++
      panel1Events (extractStep (DataFrame.mk ["TRANSACTION_AMOUNT", "TIMESTAMP"]
        [[Cell.num 1, Cell.str "garbage"]])).2 ++
      panel2Events (extractStep (DataFrame.mk ["TRANSACTION_AMOUNT", "TIMESTAMP"]
        [[Cell.num 1, Cell.str "garbage"]])).2 ++
      panel3Events (extractStep (DataFrame.mk ["TRANSACTION_AMOUNT", "TIMESTAMP"]
        [[Cell.num 1, Cell.str "garbage"]])).2 ++
      panel4Events (extractStep (DataFrame.mk ["TRANSACTION_AMOUNT", "TIMESTAMP"]
        [[Cell.num 1, Cell.str "garbage"]])).2 ++
      [Event.subheaderEv "5. Time Series of Transaction Amounts",
       Event.errorEv (tsErrPrefix ++ pyErrMsg PyErr.valueError)] :=
  c8_timestamp_error_caught
    (DataFrame.mk ["TRANSACTION_AMOUNT", "TIMESTAMP"] [[Cell.num 1, Cell.str "garbage"]])
    PyErr.valueError rfl rfl rfl

/-- C9: the presenter block reads the table (preview, shape, info,
statistics, currency uniques and counts) and leaves it unchanged. -/
theorem c9_presenter_leaves_table_unchanged (df : DataFrame) :
    (presenterStep df).2 = df :=
  rfl

/-- C10: on any string decoding to a JSON object, the extractor returns the
value the object maps `total_balance` to, as-is and with no type check
(absent key gives the empty result via the dict lookup); on a string
decoding to anything that is not an object, it returns the empty result. -/
theorem c10_extractor_object_get (s : String) (j : Json) (hj : json_loads s = some j) :
    (∀ kvs, j = Json.obj kvs →
      parse_json_column (Cell.str s) = Except.ok (dictGet kvs "total_balance")) ∧
    ((∀ kvs, j ≠ Json.obj kvs) → parse_json_column (Cell.str s) = Except.ok none) := by
  constructor
  · rintro kvs rfl
    simp [parse_json_column, parse_json_body, hj]
  · intro h
    cases j with
    | obj kvs => exact absurd rfl (h kvs)
    | null => simp [parse_json_column, parse_json_body, hj]
    | bool b => simp [parse_json_column, parse_json_body, hj]
    | num q => simp [parse_json_column, parse_json_body, hj]
    | str t => simp [parse_json_column, parse_json_body, hj]
    | arr xs => simp [parse_json_column, parse_json_body, hj]

/-- C10 witness: a string-valued `total_balance` field is returned as-is. -/
theorem c10_witness :
    parse_json_column (Cell.str "\x7b\"total_balance\": \"abc\"\x7d") =
      Except.ok (dictGet [("total_balance", Json.str "abc")] "total_balance") :=
  (c10_extractor_object_get "\x7b\"total_balance\": \"abc\"\x7d"
    (Json.obj [("total_balance", Json.str "abc")]) rfl).1 _ rfl
